import Mathlib

/-!
Verification of the completion/streaming glue layer of
`gpt4all-bindings/typescript/src/gpt4all.js` against its specification.

The file shallowly embeds the functions `loadModel`, `createCompletion`,
`createCompletionStream` and `createCompletionGenerator`.  External
collaborators (the Model Provider, the filesystem, the Node stream) are
modelled as explicit parameters or data, following the spec's description of
them as opaque capabilities.
-/

set_option autoImplicit false

namespace Gpt4all

/-- A JavaScript value as observed by the token callbacks: one of the two
booleans, `undefined`, or any other value.  The code only ever compares such a
value against boolean `false` (with `!==`). -/
inductive JSValue where
  | bool (b : Bool)
  | undef
  | other
deriving DecidableEq

/-- One generated unit (token): its identifier and its text, as passed to the
per-token callbacks. -/
structure TokenUnit where
  tokenId : Nat
  text : String
deriving DecidableEq

/-- Placeholder unit used as the default for out-of-range list lookups. -/
def defaultUnit : TokenUnit := { tokenId := 0, text := "" }

/-- A caller-supplied `onToken` hook, when present: it receives the token id,
the unit's text and the accumulated full text, and returns a JS value. -/
abbrev Hook := Option (Nat → String → String → JSValue)

/-- The options record consumed by `createCompletion` (gpt4all.js lines
92-126).  Only `verbose` (observability, no behavioural impact) and the
`onToken` hook affect the embedded behaviour; the remaining sampling options
are forwarded opaquely to the provider. -/
structure CompletionOptions where
  verbose : Bool := false
  onToken : Hook := none

/-- Modelled from the spec: the Model Provider is an external collaborator
("an opaque capability that, given a prompt and generation configuration,
produces output text and invokes a per-token callback; not implemented
here").  A stub provider is described by its model name, the token units its
`generate` emits in order (invoking the token callback once per unit), and
the value its `generate` finally settles with: the full produced text, or an
error. -/
structure Provider (ε : Type) where
  modelName : String
  units : List TokenUnit
  outcome : Except ε String

/-- The continuation flag computed by `createCompletion`'s internal token
callback (gpt4all.js lines 115-121): `true` unless the caller's `onToken`
hook is present and its return value is exactly the boolean `false`
(`options.onToken(tokenId, text, fullText) !== false`). -/
def continueFlag (onToken : Hook) (tokenId : Nat) (text fullText : String) :
    Bool :=
  match onToken with
  | none => true
  | some hook =>
      if hook tokenId text fullText = JSValue.bool false then false else true

/-- One emit-all generation run of `createCompletion`'s internal token
callback (gpt4all.js lines 107-125) against a stub provider that emits every
one of its units (per the spec the continuation flag is advisory: "the
provider, not this layer, decides whether to actually stop").  For each unit
in order the callback computes the continuation flag from the caller's hook
and then increments `tokensGenerated`, regardless of the hook's return value;
`acc` is the full text accumulated before the unit.  Returns the list of
continuation flags handed back to the provider, one per invocation, together
with the final counter. -/
def ccRun (onToken : Hook) :
    List TokenUnit → String → Nat → List Bool × Nat
  | [], _, tokensGenerated => ([], tokensGenerated)
  | u :: rest, acc, tokensGenerated =>
      let flag := continueFlag onToken u.tokenId u.text (acc ++ u.text)
      let r := ccRun onToken rest (acc ++ u.text) (tokensGenerated + 1)
      (flag :: r.1, r.2)

/-- The concatenation of a unit list's texts in order; `accumText (us.take
(i+1))` is the `fullText` argument the stub provider passes at its `i`-th
callback invocation. -/
def accumText : List TokenUnit → String
  | [] => ""
  | u :: rest => u.text ++ accumText rest

/-- Usage counts of a completed request (gpt4all.js lines 130-134). -/
structure Usage where
  prompt_tokens : Nat
  completion_tokens : Nat
  total_tokens : Nat
deriving DecidableEq

/-- The single output message of a completed request (lines 135-138). -/
structure OutputMessage where
  role : String
  content : String
deriving DecidableEq

/-- The structured response built by `createCompletion` (lines 128-139). -/
structure GenerationResult where
  llmodel : String
  usage : Usage
  message : OutputMessage
deriving DecidableEq

/-- Shallow embedding of `createCompletion` (gpt4all.js lines 92-140) run
against an emit-all stub provider.  The provider invokes the internal token
callback once per unit (see `ccRun`) and then settles with its outcome; on
success the function builds the `GenerationResult` with `prompt_tokens` the
character length of the message, `completion_tokens` the internal counter,
and `content` the provider's returned text; on failure the rejection
propagates unmodified (`await` rethrows).  Returns the continuation flags
handed to the provider paired with the settled value. -/
def createCompletion {ε : Type} (p : Provider ε) (message : String)
    (options : CompletionOptions) : List Bool × Except ε GenerationResult :=
  let run := ccRun options.onToken p.units "" 0
  match p.outcome with
  | Except.error e => (run.1, Except.error e)
  | Except.ok response =>
      (run.1, Except.ok
        { llmodel := p.modelName
          usage :=
            { prompt_tokens := message.length
              completion_tokens := run.2
              total_tokens := message.length + run.2 }
          message := { role := "assistant", content := response } })

/-- The `onToken` hook injected by `createCompletionStream` (gpt4all.js lines
153-158), as seen by `createCompletion`'s internal callback: it first pushes
the unit's text onto the stream (the pushes are modelled by the chunk list of
`StreamHandle`), then returns the caller's hook's value when a caller hook is
present, and `undefined` (no explicit return) otherwise. -/
def streamOnToken (onToken : Hook) (tokenId : Nat) (text fullText : String) :
    JSValue :=
  match onToken with
  | some h => h tokenId text fullText
  | none => JSValue.undef

/-- The observable state of the pair returned by `createCompletionStream`
(lines 165-168) once the underlying request has settled: the text chunks
pushed onto the `PassThrough` stream in order, whether end-of-stream was
signalled (`push(null)` / `emit("end")`), and the settled deferred result. -/
structure StreamHandle (ε : Type) where
  chunks : List String
  closed : Bool
  result : Except ε GenerationResult

/-- Settlement-order events of `createCompletionStream`'s completion promise
(lines 159-163). -/
inductive SettleEvent where
  | closeStream
  | resolveResult
  | rejectResult
deriving DecidableEq

/-- Settlement-order trace of `createCompletionStream`'s `then` handler
(lines 159-163): on success the handler first closes the stream
(`push(null)`, `emit("end")`) and then resolves the deferred result with the
`GenerationResult`; on failure the fulfilment handler is skipped — `then` was
given no rejection handler — so the promise rejects without the stream ever
being closed. -/
def streamSettleTrace {ε : Type} (p : Provider ε) : List SettleEvent :=
  match p.outcome with
  | Except.ok _ => [SettleEvent.closeStream, SettleEvent.resolveResult]
  | Except.error _ => [SettleEvent.rejectResult]

/-- Shallow embedding of `createCompletionStream` (gpt4all.js lines 142-169)
run against an emit-all stub provider.  `createCompletion` is invoked with
the injected hook `streamOnToken options.onToken`; that hook pushes every
invoked unit's text before anything else, so the chunk list is the units'
texts in generation order.  `push(null)` and `emit("end")` live only in the
promise's fulfilment handler, so the stream ends up closed exactly when the
inner `createCompletion` succeeded. -/
def createCompletionStream {ε : Type} (p : Provider ε) (message : String)
    (options : CompletionOptions) : StreamHandle ε :=
  let inner := createCompletion p message
    { verbose := options.verbose
      onToken := some (streamOnToken options.onToken) }
  { chunks := p.units.map (fun u => u.text)
    closed := match inner.2 with
      | Except.ok _ => true
      | Except.error _ => false
    result := inner.2 }

/-- Shallow embedding of `createCompletionGenerator` (gpt4all.js lines
171-177): it `for await`s the chunks of `createCompletionStream`'s stream in
order and then returns the awaited deferred result.  When the stream is never
closed (the deferred rejected, so `push(null)` never ran) the iteration never
finishes; the model returns `none` for that diverging run. -/
def createCompletionGenerator {ε : Type} (p : Provider ε) (message : String)
    (options : CompletionOptions) :
    Option (List String × Except ε GenerationResult) :=
  let s := createCompletionStream p message options
  if s.closed then some (s.chunks, s.result) else none

/-- Modelled from the spec: a stub provider that honours the stop signal — it
emits its units in order and stops immediately after the first callback
invocation that returns a `false` continuation flag.  Returns the units for
which the callback was actually invoked; the stopping unit is included, since
its callback ran (and returned `false`). -/
def emitUntilStop (cb : Nat → String → String → Bool) :
    List TokenUnit → String → List TokenUnit
  | [], _ => []
  | u :: rest, acc =>
      if cb u.tokenId u.text (acc ++ u.text) then
        u :: emitUntilStop cb rest (acc ++ u.text)
      else
        [u]

/-- The chunks pushed by `createCompletionStream`'s injected hook (lines
153-158) across a run against the stop-honouring stub provider: the injected
hook pushes every invoked unit's text — the push precedes consulting the
caller's hook — so the chunks are the texts of exactly the invoked units. -/
def streamStoppingChunks {ε : Type} (p : Provider ε)
    (options : CompletionOptions) : List String :=
  (emitUntilStop
      (fun tokenId text fullText =>
        continueFlag (some (streamOnToken options.onToken))
          tokenId text fullText)
      p.units "").map (fun u => u.text)

/-- An observable event inside one invocation of the injected hook: a push of
a chunk onto the stream, or the consultation of the caller's hook. -/
inductive SEvent where
  | push (text : String)
  | consult (tokenId : Nat) (text : String)
deriving DecidableEq

/-- Event order of `createCompletionStream`'s injected hook (lines 153-158)
across a run against the stop-honouring stub provider: for each invoked unit
the push of its text happens first, then the caller's hook (when present) is
consulted; the run continues while the consulted value is not the boolean
`false`. -/
def streamEventsStopping (onToken : Hook) :
    List TokenUnit → String → List SEvent
  | [], _ => []
  | u :: rest, acc =>
      match onToken with
      | none => SEvent.push u.text :: streamEventsStopping none rest (acc ++ u.text)
      | some h =>
          SEvent.push u.text :: SEvent.consult u.tokenId u.text ::
            (if h u.tokenId u.text (acc ++ u.text) = JSValue.bool false then
              []
            else
              streamEventsStopping (some h) rest (acc ++ u.text))

/-! ### loadModel -/

/-- The JavaScript value supplied for `librariesPath`: a string, or any
non-string value (which fails the `typeof ... === "string"` assertion on
line 52). -/
inductive LibrariesPathValue where
  | str (s : String)
  | nonString
deriving DecidableEq

/-- The caller's options record for `loadModel`: every recognised key may be
supplied or omitted (`none` models an absent key). -/
structure LoadModelOptions where
  modelPath : Option String := none
  librariesPath : Option LibrariesPathValue := none
  type : Option String := none
  allowDownload : Option Bool := none
  verbose : Option Bool := none
  device : Option String := none
  nCtx : Option Nat := none
  ngl : Option Nat := none

/-- The effective configuration after the merge on gpt4all.js lines 33-43. -/
structure LoadOptions where
  modelPath : String
  librariesPath : LibrariesPathValue
  type : String
  allowDownload : Bool
  verbose : Bool
  device : String
  nCtx : Nat
  ngl : Nat
deriving DecidableEq

/-- The object-spread merge `{ modelPath: DEFAULT_DIRECTORY, ..., ...options }`
of gpt4all.js lines 33-43: each key takes the caller's value when supplied
and the fixed default otherwise.  The two default directory strings
(`DEFAULT_DIRECTORY`, `DEFAULT_LIBRARIES_DIRECTORY`, imported from the
external `config.js`) are parameters. -/
def mergeLoadOptions (defaultDir defaultLibDir : String)
    (options : LoadModelOptions) : LoadOptions :=
  { modelPath := options.modelPath.getD defaultDir
    librariesPath :=
      options.librariesPath.getD (LibrariesPathValue.str defaultLibDir)
    type := options.type.getD "inference"
    allowDownload := options.allowDownload.getD true
    verbose := options.verbose.getD false
    device := options.device.getD "cpu"
    nCtx := options.nCtx.getD 2048
    ngl := options.ngl.getD 100 }

/-- Modelled from the spec: `appendBinSuffixIfMissing` is imported from the
external `util.js`; per the spec the native handle receives the "model name
with a fixed binary-file suffix appended if missing". -/
def appendBinSuffixIfMissing (name : String) : String :=
  if name.endsWith ".bin" then name else name ++ ".bin"

/-- The options record handed to the native `LLModel` constructor (gpt4all.js
lines 58-65). -/
structure LLModelOptions where
  model_name : String
  model_path : String
  library_path : String
  device : String
  nCtx : Nat
  ngl : Nat
deriving DecidableEq

/-- An observable step performed by `loadModel` before it settles: the
`retrieveModel` call (line 45, model resolution, may download) and the
construction of the native `LLModel` handle (line 73). -/
inductive LoadStep where
  | resolveModel (modelName modelPath : String) (allowDownload verbose : Bool)
  | constructHandle (llmOptions : LLModelOptions)
deriving DecidableEq

/-- The failures `loadModel` itself raises: the `assert.ok` on line 52 and
the invalid-model-type `Error` on line 79. -/
inductive LoadError where
  | assertionError (msg : String)
  | invalidModelType (badType : String)
deriving DecidableEq

/-- The wrapper `loadModel` resolves with: an `EmbeddingModel` or an
`InferenceModel` around the native handle (lines 74-77). -/
inductive LoadedModel where
  | embedding (handle : LLModelOptions)
  | inference (handle : LLModelOptions)
deriving DecidableEq

/-- Whether a step is the construction of the native handle. -/
def LoadStep.isConstructHandle : LoadStep → Bool
  | LoadStep.constructHandle _ => true
  | _ => false

/-- Whether a step is the `retrieveModel` model-resolution call. -/
def LoadStep.isResolveModel : LoadStep → Bool
  | LoadStep.resolveModel _ _ _ _ => true
  | _ => false

/-- The `library_path` values of the native handles constructed in a step
trace. -/
def constructedLibraryPaths (steps : List LoadStep) : List String :=
  steps.filterMap fun s =>
    match s with
    | LoadStep.constructHandle o => some o.library_path
    | _ => none

/-- Shallow embedding of `loadModel` (gpt4all.js lines 32-81).  `existsFS` is
the ambient `existsSync`; the model-resolution collaborator is assumed to
succeed (resolution failures propagate from it unmodified and are outside
these claims).  The function merges the options (lines 33-43), awaits
`retrieveModel` (line 45), asserts that `librariesPath` is a string (line
52), splits it on ";" and keeps the existing entries rejoined with ";"
(lines 53-56), constructs the native `LLModel` handle (lines 58-73), and
only then dispatches on `type` (lines 74-80).  Returns the step trace
performed before settling, paired with the settled value. -/
def loadModel (existsFS : String → Bool) (defaultDir defaultLibDir : String)
    (modelName : String) (options : LoadModelOptions) :
    List LoadStep × Except LoadError LoadedModel :=
  let loadOptions := mergeLoadOptions defaultDir defaultLibDir options
  let steps0 :=
    [LoadStep.resolveModel modelName loadOptions.modelPath
      loadOptions.allowDownload loadOptions.verbose]
  match loadOptions.librariesPath with
  | LibrariesPathValue.nonString =>
      (steps0,
        Except.error (LoadError.assertionError "Libraries path should be a string"))
  | LibrariesPathValue.str libPath =>
      let existingPaths :=
        String.intercalate ";" ((libPath.splitOn ";").filter existsFS)
      let llmOptions : LLModelOptions :=
        { model_name := appendBinSuffixIfMissing modelName
          model_path := loadOptions.modelPath
          library_path := existingPaths
          device := loadOptions.device
          nCtx := loadOptions.nCtx
          ngl := loadOptions.ngl }
      let steps := steps0 ++ [LoadStep.constructHandle llmOptions]
      if loadOptions.type = "embedding" then
        (steps, Except.ok (LoadedModel.embedding llmOptions))
      else if loadOptions.type = "inference" then
        (steps, Except.ok (LoadedModel.inference llmOptions))
      else
        (steps, Except.error (LoadError.invalidModelType loadOptions.type))

/-! ### Sample data used by the concrete witnesses -/

/-- Three concrete token units. -/
def sampleUnits : List TokenUnit :=
  [{ tokenId := 10, text := "He" }, { tokenId := 11, text := "llo" },
   { tokenId := 12, text := "!" }]

/-- A stub provider whose generate succeeds after emitting three units. -/
def sampleOkProvider : Provider String :=
  { modelName := "mistral-7b", units := sampleUnits, outcome := Except.ok "Hello!" }

/-- A stub provider whose generate fails after emitting one unit. -/
def sampleFailProvider : Provider String :=
  { modelName := "mistral-7b", units := [{ tokenId := 10, text := "He" }],
    outcome := Except.error "boom" }

/-- A caller hook that returns boolean false exactly at the unit with text
"llo" (the second sample unit) and undefined elsewhere. -/
def stopAtSecondHook : Nat → String → String → JSValue :=
  fun _ text _ => if text = "llo" then JSValue.bool false else JSValue.undef

/-- Completion options carrying `stopAtSecondHook`. -/
def sampleStopOptions : CompletionOptions := { onToken := some stopAtSecondHook }

/-! ### Helper lemmas -/

/-- The flag list produced by `ccRun` has one entry per emitted unit. -/
lemma ccRun_fst_length (onToken : Hook) :
    ∀ (us : List TokenUnit) (acc : String) (n : Nat),
      ((ccRun onToken us acc n).1).length = us.length
  | [], _, _ => rfl
  | u :: rest, acc, n => by
      simp [ccRun, ccRun_fst_length onToken rest (acc ++ u.text) (n + 1)]

/-- The counter produced by `ccRun` grows by exactly one per emitted unit,
regardless of the hook's return values. -/
lemma ccRun_snd (onToken : Hook) :
    ∀ (us : List TokenUnit) (acc : String) (n : Nat),
      (ccRun onToken us acc n).2 = n + us.length
  | [], _, n => by simp [ccRun]
  | u :: rest, acc, n => by
      simp [ccRun, ccRun_snd onToken rest (acc ++ u.text) (n + 1)]
      omega

/-- The `i`-th continuation flag of a `ccRun` is `continueFlag` applied to the
`i`-th unit and the text accumulated up to and including it. -/
lemma ccRun_fst_getD (onToken : Hook) :
    ∀ (us : List TokenUnit) (acc : String) (n i : Nat), i < us.length →
      ((ccRun onToken us acc n).1).getD i true =
        continueFlag onToken (us.getD i defaultUnit).tokenId
          (us.getD i defaultUnit).text (acc ++ accumText (us.take (i + 1)))
  | [], _, _, i, hi => absurd hi (by simp)
  | u :: rest, acc, n, 0, _ => by
      simp [ccRun, accumText, String.append_empty]
  | u :: rest, acc, n, i + 1, hi => by
      have ih := ccRun_fst_getD onToken rest (acc ++ u.text) (n + 1) i
        (by simpa using hi)
      simpa [ccRun, accumText, String.append_assoc] using ih

/-- `continueFlag` is false exactly when a hook is present and returned the
boolean false. -/
lemma continueFlag_eq_false_iff (onToken : Hook) (a : Nat) (b c : String) :
    continueFlag onToken a b c = false ↔
      ∃ h, onToken = some h ∧ h a b c = JSValue.bool false := by
  cases onToken with
  | none => simp [continueFlag]
  | some h =>
      by_cases hv : h a b c = JSValue.bool false <;> simp [continueFlag, hv]

/-- When the provider's generate succeeds with text `t`, `createCompletion`
resolves with the fully determined `GenerationResult`. -/
lemma createCompletion_ok {ε : Type} (p : Provider ε) (message : String)
    (options : CompletionOptions) (t : String) (ht : p.outcome = Except.ok t) :
    (createCompletion p message options).2 = Except.ok
      { llmodel := p.modelName
        usage := { prompt_tokens := message.length
                   completion_tokens := p.units.length
                   total_tokens := message.length + p.units.length }
        message := { role := "assistant", content := t } } := by
  unfold createCompletion
  rw [ht]
  simp [ccRun_snd]

/-! ### Claims C1, C2 and C5 -/

/-- Claim C1: the continuation flag returned to the provider by
`createCompletion`'s internal token callback is false at exactly those
callback invocations where the caller-supplied `onToken` hook returns the
boolean value false; with no hook, or with a hook returning anything other
than boolean false, the flag is true. -/
theorem createCompletion_flag_false_iff_hook_false {ε : Type} (p : Provider ε)
    (message : String) (options : CompletionOptions) (i : Nat)
    (hi : i < p.units.length) :
    (createCompletion p message options).1.length = p.units.length ∧
    (((createCompletion p message options).1.getD i true = false) ↔
      ∃ h, options.onToken = some h ∧
        h (p.units.getD i defaultUnit).tokenId (p.units.getD i defaultUnit).text
          (accumText (p.units.take (i + 1))) = JSValue.bool false) := by
  have hfst : (createCompletion p message options).1 =
      (ccRun options.onToken p.units "" 0).1 := by
    unfold createCompletion
    cases p.outcome <;> rfl
  constructor
  · rw [hfst]
    exact ccRun_fst_length options.onToken p.units "" 0
  · rw [hfst, ccRun_fst_getD options.onToken p.units "" 0 i hi,
      String.empty_append]
    exact continueFlag_eq_false_iff options.onToken _ _ _

/-- Witness for C1: with the sample provider and the hook that returns false
exactly at the second unit, the theorem applies at invocation index 1. -/
theorem createCompletion_flag_false_iff_hook_false_witness :
    (createCompletion sampleOkProvider "hi" sampleStopOptions).1.length =
        sampleOkProvider.units.length ∧
    (((createCompletion sampleOkProvider "hi" sampleStopOptions).1.getD 1 true
        = false) ↔
      ∃ h, sampleStopOptions.onToken = some h ∧
        h (sampleOkProvider.units.getD 1 defaultUnit).tokenId
          (sampleOkProvider.units.getD 1 defaultUnit).text
          (accumText (sampleOkProvider.units.take (1 + 1))) =
            JSValue.bool false) :=
  createCompletion_flag_false_iff_hook_false sampleOkProvider "hi"
    sampleStopOptions 1 (by decide)

/-- Claim C2: for a provider whose generate invokes the callback once per
unit and returns text `t`, `createCompletion` resolves to the
`GenerationResult` with `completion_tokens` the number of invocations,
`prompt_tokens` the character length of the message, `total_tokens` their
sum, role "assistant", content `t` and `llmodel` the provider's model name;
the counter is incremented per invocation regardless of the hook (the
statement holds for every `options`). -/
theorem createCompletion_result_spec {ε : Type} (p : Provider ε)
    (message : String) (options : CompletionOptions) (t : String)
    (ht : p.outcome = Except.ok t) :
    (createCompletion p message options).2 = Except.ok
      { llmodel := p.modelName
        usage := { prompt_tokens := message.length
                   completion_tokens := p.units.length
                   total_tokens := message.length + p.units.length }
        message := { role := "assistant", content := t } } :=
  createCompletion_ok p message options t ht

/-- Witness for C2: the sample provider emits 3 units for the 2-character
message "hi" and the result carries counts 2, 3 and 5. -/
theorem createCompletion_result_spec_witness :
    (createCompletion sampleOkProvider "hi" { }).2 = Except.ok
      { llmodel := "mistral-7b"
        usage := { prompt_tokens := 2, completion_tokens := 3, total_tokens := 5 }
        message := { role := "assistant", content := "Hello!" } } :=
  createCompletion_result_spec sampleOkProvider "hi" { } "Hello!" rfl

/-- Claim C5: when the provider's generate fails with `e`, `createCompletion`
rejects with exactly `e`: generate is invoked once (the model invokes it once
by construction, so no retry is possible) and no `GenerationResult` is
synthesized. -/
theorem createCompletion_error_propagation {ε : Type} (p : Provider ε)
    (message : String) (options : CompletionOptions) (e : ε)
    (he : p.outcome = Except.error e) :
    (createCompletion p message options).2 = Except.error e := by
  unfold createCompletion
  rw [he]

/-- Witness for C5: the failing sample provider makes `createCompletion`
reject with its error. -/
theorem createCompletion_error_propagation_witness :
    (createCompletion sampleFailProvider "hi" { }).2 = Except.error "boom" :=
  createCompletion_error_propagation sampleFailProvider "hi" { } "boom" rfl

/-! ### Claims C3, C4 and C6 -/

/-- Claim C3: when generate succeeds after emitting units `u1..un`, the
stream produces exactly the texts `u1..un` in generation order, end-of-stream
is signalled before the deferred result settles (the fulfilment handler
closes the stream and only then resolves), and the deferred result resolves
with the `GenerationResult` whose content is the provider's returned text. -/
theorem createCompletionStream_success_spec {ε : Type} (p : Provider ε)
    (message : String) (options : CompletionOptions) (t : String)
    (ht : p.outcome = Except.ok t) :
    (createCompletionStream p message options).chunks =
        p.units.map (fun u => u.text) ∧
    streamSettleTrace p = [SettleEvent.closeStream, SettleEvent.resolveResult] ∧
    (createCompletionStream p message options).closed = true ∧
    (createCompletionStream p message options).result = Except.ok
      { llmodel := p.modelName
        usage := { prompt_tokens := message.length
                   completion_tokens := p.units.length
                   total_tokens := message.length + p.units.length }
        message := { role := "assistant", content := t } } := by
  have hres := createCompletion_ok p message
    { verbose := options.verbose, onToken := some (streamOnToken options.onToken) }
    t ht
  refine ⟨rfl, ?_, ?_, ?_⟩
  · simp [streamSettleTrace, ht]
  · simp [createCompletionStream, hres]
  · simpa [createCompletionStream] using hres

/-- Witness for C3: at the successful sample provider the deferred result
resolves with the concrete `GenerationResult`. -/
theorem createCompletionStream_success_spec_witness :
    (createCompletionStream sampleOkProvider "hi" { }).result = Except.ok
      { llmodel := "mistral-7b"
        usage := { prompt_tokens := 2, completion_tokens := 3, total_tokens := 5 }
        message := { role := "assistant", content := "Hello!" } } :=
  (createCompletionStream_success_spec sampleOkProvider "hi" { } "Hello!"
    rfl).2.2.2

/-- Claim C4, code behaviour at the failing input: when generate fails, the
deferred result does reject with the error, but — contrary to the claim and
the spec — the stream is NEVER closed: `push(null)` and `emit("end")` live
only in the promise's fulfilment handler (gpt4all.js lines 159-163), which a
rejection skips, so no end-of-stream is ever signalled. -/
theorem createCompletionStream_failure_leaves_stream_open :
    (createCompletionStream sampleFailProvider "hi" { }).result =
        Except.error "boom" ∧
    (createCompletionStream sampleFailProvider "hi" { }).closed = false ∧
    streamSettleTrace sampleFailProvider = [SettleEvent.rejectResult] :=
  ⟨rfl, rfl, rfl⟩

/-- Claim C6: iterated to exhaustion (the provider's generate succeeds, so
the stream closes and the iteration terminates), the generator yields exactly
the chunk sequence of `createCompletionStream`'s stream for the same inputs,
and its trailing return value is the value the stream's deferred result
resolves with. -/
theorem createCompletionGenerator_refines_stream {ε : Type} (p : Provider ε)
    (message : String) (options : CompletionOptions) (t : String)
    (ht : p.outcome = Except.ok t) :
    createCompletionGenerator p message options =
      some ((createCompletionStream p message options).chunks,
            (createCompletionStream p message options).result) ∧
    (createCompletionStream p message options).result = Except.ok
      { llmodel := p.modelName
        usage := { prompt_tokens := message.length
                   completion_tokens := p.units.length
                   total_tokens := message.length + p.units.length }
        message := { role := "assistant", content := t } } := by
  have hres := createCompletion_ok p message
    { verbose := options.verbose, onToken := some (streamOnToken options.onToken) }
    t ht
  have hclosed : (createCompletionStream p message options).closed = true := by
    simp [createCompletionStream, hres]
  constructor
  · simp [createCompletionGenerator, hclosed]
  · simpa [createCompletionStream] using hres

/-- Witness for C6: at the successful sample provider the generator
terminates with the stream's chunks and result. -/
theorem createCompletionGenerator_refines_stream_witness :
    createCompletionGenerator sampleOkProvider "hi" { } =
      some ((createCompletionStream sampleOkProvider "hi" { }).chunks,
            (createCompletionStream sampleOkProvider "hi" { }).result) :=
  (createCompletionGenerator_refines_stream sampleOkProvider "hi" { } "Hello!"
    rfl).1

/-! ### Claims C7, C8 and C9 -/

/-- Options record with an unrecognized model type. -/
def badTypeOpts : LoadModelOptions := { type := some "chat" }

/-- Options record whose librariesPath is a non-string value. -/
def nonStringLibOpts : LoadModelOptions :=
  { librariesPath := some LibrariesPathValue.nonString }

/-- Options record with a three-entry librariesPath string. -/
def strLibOpts : LoadModelOptions :=
  { librariesPath := some (LibrariesPathValue.str "a;b;c") }

/-- A concrete filesystem in which only the path "b" exists. -/
def existsOnlyB : String → Bool := fun s => s = "b"

/-- Counterexample to C7 as stated: with type "chat", `loadModel` does reject
with the invalid-model-type error naming the value, but a native model handle
IS constructed — `new LLModel(llmOptions)` on line 73 runs before the type
dispatch on lines 74-80 — refuting "no native model handle is constructed". -/
theorem loadModel_invalid_type_constructs_handle :
    ((loadModel (fun _ => false) "models" "libs" "mistral" badTypeOpts).1.any
        LoadStep.isConstructHandle = true) ∧
    ((loadModel (fun _ => false) "models" "libs" "mistral" badTypeOpts).2 =
      Except.error (LoadError.invalidModelType "chat")) :=
  ⟨rfl, rfl⟩

/-- Claim C7 (amended): whenever the merged librariesPath is a string, an
unrecognized merged type makes `loadModel` reject with the invalid-model-type
error naming the bad value — but only after a native model handle has been
constructed (and discarded); type "embedding" yields an `EmbeddingModel`
wrapper and type "inference" an `InferenceModel` wrapper. -/
theorem loadModel_type_dispatch (existsFS : String → Bool)
    (defaultDir defaultLibDir modelName : String) (options : LoadModelOptions)
    (s : String)
    (hlib : (mergeLoadOptions defaultDir defaultLibDir options).librariesPath =
      LibrariesPathValue.str s) :
    ((loadModel existsFS defaultDir defaultLibDir modelName options).1.any
        LoadStep.isConstructHandle = true) ∧
    ((mergeLoadOptions defaultDir defaultLibDir options).type = "embedding" →
      ∃ h, (loadModel existsFS defaultDir defaultLibDir modelName options).2 =
        Except.ok (LoadedModel.embedding h)) ∧
    ((mergeLoadOptions defaultDir defaultLibDir options).type = "inference" →
      ∃ h, (loadModel existsFS defaultDir defaultLibDir modelName options).2 =
        Except.ok (LoadedModel.inference h)) ∧
    ((mergeLoadOptions defaultDir defaultLibDir options).type ≠ "embedding" →
      (mergeLoadOptions defaultDir defaultLibDir options).type ≠ "inference" →
      (loadModel existsFS defaultDir defaultLibDir modelName options).2 =
        Except.error (LoadError.invalidModelType
          (mergeLoadOptions defaultDir defaultLibDir options).type)) := by
  by_cases h1 : (mergeLoadOptions defaultDir defaultLibDir options).type = "embedding"
  · simp [loadModel, hlib, h1, LoadStep.isConstructHandle]
  · by_cases h2 : (mergeLoadOptions defaultDir defaultLibDir options).type = "inference"
    · simp [loadModel, hlib, h1, h2, LoadStep.isConstructHandle]
    · simp [loadModel, hlib, h1, h2, LoadStep.isConstructHandle]

/-- Witness for C7's amended theorem: at the concrete bad type "chat" the
rejection names the value while a handle was constructed. -/
theorem loadModel_type_dispatch_witness :
    ((loadModel (fun _ => true) "models" "libs" "mistral" badTypeOpts).1.any
        LoadStep.isConstructHandle = true) ∧
    ((loadModel (fun _ => true) "models" "libs" "mistral" badTypeOpts).2 =
      Except.error (LoadError.invalidModelType "chat")) := by
  have h := loadModel_type_dispatch (fun _ => true) "models" "libs" "mistral"
    badTypeOpts "libs" rfl
  exact ⟨h.1, h.2.2.2 (by decide) (by decide)⟩

/-- Claim C8: the effective configuration is the caller's options merged over
the fixed defaults — for each of the eight keys the caller's value wins when
supplied and the default {defaultDir, defaultLibDir, "inference", true,
false, "cpu", 2048, 100} fills in when omitted. -/
theorem loadModel_option_merge (defaultDir defaultLibDir : String)
    (options : LoadModelOptions) :
    ((options.modelPath = none →
        (mergeLoadOptions defaultDir defaultLibDir options).modelPath = defaultDir) ∧
     (∀ v, options.modelPath = some v →
        (mergeLoadOptions defaultDir defaultLibDir options).modelPath = v)) ∧
    ((options.librariesPath = none →
        (mergeLoadOptions defaultDir defaultLibDir options).librariesPath =
          LibrariesPathValue.str defaultLibDir) ∧
     (∀ v, options.librariesPath = some v →
        (mergeLoadOptions defaultDir defaultLibDir options).librariesPath = v)) ∧
    ((options.type = none →
        (mergeLoadOptions defaultDir defaultLibDir options).type = "inference") ∧
     (∀ v, options.type = some v →
        (mergeLoadOptions defaultDir defaultLibDir options).type = v)) ∧
    ((options.allowDownload = none →
        (mergeLoadOptions defaultDir defaultLibDir options).allowDownload = true) ∧
     (∀ v, options.allowDownload = some v →
        (mergeLoadOptions defaultDir defaultLibDir options).allowDownload = v)) ∧
    ((options.verbose = none →
        (mergeLoadOptions defaultDir defaultLibDir options).verbose = false) ∧
     (∀ v, options.verbose = some v →
        (mergeLoadOptions defaultDir defaultLibDir options).verbose = v)) ∧
    ((options.device = none →
        (mergeLoadOptions defaultDir defaultLibDir options).device = "cpu") ∧
     (∀ v, options.device = some v →
        (mergeLoadOptions defaultDir defaultLibDir options).device = v)) ∧
    ((options.nCtx = none →
        (mergeLoadOptions defaultDir defaultLibDir options).nCtx = 2048) ∧
     (∀ v, options.nCtx = some v →
        (mergeLoadOptions defaultDir defaultLibDir options).nCtx = v)) ∧
    ((options.ngl = none →
        (mergeLoadOptions defaultDir defaultLibDir options).ngl = 100) ∧
     (∀ v, options.ngl = some v →
        (mergeLoadOptions defaultDir defaultLibDir options).ngl = v)) := by
  refine ⟨⟨?_, ?_⟩, ⟨?_, ?_⟩, ⟨?_, ?_⟩, ⟨?_, ?_⟩, ⟨?_, ?_⟩, ⟨?_, ?_⟩,
    ⟨?_, ?_⟩, ⟨?_, ?_⟩⟩ <;>
    first
      | (intro h; simp [mergeLoadOptions, h])
      | (intro v h; simp [mergeLoadOptions, h])

/-- Options used by the merge witness: two keys supplied, the rest omitted. -/
def mergeSampleOpts : LoadModelOptions :=
  { modelPath := some "mp", device := some "gpu" }

/-- Witness for C8: the supplied device wins and the omitted nCtx gets its
default. -/
theorem loadModel_option_merge_witness :
    (mergeLoadOptions "d" "l" mergeSampleOpts).device = "gpu" ∧
    (mergeLoadOptions "d" "l" mergeSampleOpts).nCtx = 2048 := by
  have h := loadModel_option_merge "d" "l" mergeSampleOpts
  exact ⟨h.2.2.2.2.2.1.2 "gpu" rfl, h.2.2.2.2.2.2.1.1 rfl⟩

/-- Counterexample to C9 as stated: with a non-string librariesPath,
`loadModel` does fail with the configuration (assertion) error, but NOT
"before any model resolution": the `retrieveModel` call on line 45 is awaited
before the assertion on line 52, so the failing run's trace contains a
model-resolution step. -/
theorem loadModel_nonstring_libraries_after_resolution :
    ((loadModel (fun _ => false) "models" "libs" "mistral" nonStringLibOpts).1.any
        LoadStep.isResolveModel = true) ∧
    ((loadModel (fun _ => false) "models" "libs" "mistral" nonStringLibOpts).2 =
      Except.error (LoadError.assertionError "Libraries path should be a string")) :=
  ⟨rfl, rfl⟩

/-- Claim C9 (amended): a non-string librariesPath makes `loadModel` fail
with the configuration (assertion) error after model resolution but before
any native-handle construction; a string librariesPath is split on ";",
filtered to the entries that exist on the filesystem, and rejoined with ";"
as the `library_path` handed to every constructed native handle. -/
theorem loadModel_libraries_path (existsFS : String → Bool)
    (defaultDir defaultLibDir modelName : String)
    (options : LoadModelOptions) :
    ((mergeLoadOptions defaultDir defaultLibDir options).librariesPath =
        LibrariesPathValue.nonString →
      ((loadModel existsFS defaultDir defaultLibDir modelName options).2 =
        Except.error (LoadError.assertionError "Libraries path should be a string")) ∧
      ((loadModel existsFS defaultDir defaultLibDir modelName options).1.any
        LoadStep.isConstructHandle = false) ∧
      ((loadModel existsFS defaultDir defaultLibDir modelName options).1.any
        LoadStep.isResolveModel = true)) ∧
    (∀ s, (mergeLoadOptions defaultDir defaultLibDir options).librariesPath =
        LibrariesPathValue.str s →
      constructedLibraryPaths
          (loadModel existsFS defaultDir defaultLibDir modelName options).1 =
        [String.intercalate ";" (List.filter existsFS (s.splitOn ";"))]) := by
  constructor
  · intro hns
    refine ⟨?_, ?_, ?_⟩ <;>
      simp [loadModel, hns, LoadStep.isConstructHandle, LoadStep.isResolveModel]
  · intro s hs
    by_cases h1 : (mergeLoadOptions defaultDir defaultLibDir options).type = "embedding"
    · simp [loadModel, hs, h1, constructedLibraryPaths]
    · by_cases h2 : (mergeLoadOptions defaultDir defaultLibDir options).type = "inference"
      · simp [loadModel, hs, h1, h2, constructedLibraryPaths]
      · simp [loadModel, hs, h1, h2, constructedLibraryPaths]

/-- Witness for C9's amended theorem: the non-string branch fails with the
assertion error, and the string "a;b;c" is filtered to its existing entry
"b". -/
theorem loadModel_libraries_path_witness :
    ((loadModel existsOnlyB "models" "libs" "mistral" nonStringLibOpts).2 =
      Except.error (LoadError.assertionError "Libraries path should be a string")) ∧
    (constructedLibraryPaths
        (loadModel existsOnlyB "models" "libs" "mistral" strLibOpts).1 =
      [String.intercalate ";" (List.filter existsOnlyB ("a;b;c".splitOn ";"))]) :=
  ⟨((loadModel_libraries_path existsOnlyB "models" "libs" "mistral"
      nonStringLibOpts).1 rfl).1,
   (loadModel_libraries_path existsOnlyB "models" "libs" "mistral"
      strLibOpts).2 "a;b;c" rfl⟩

/-! ### Claim C10 -/

/-- When the hook flags are true strictly before index `k` and false at `k`,
the stop-honouring provider emits exactly the first `k + 1` units (the
stopping unit's callback still ran). -/
lemma emitUntilStop_eq_take (cb : Nat → String → String → Bool) :
    ∀ (us : List TokenUnit) (acc : String) (k : Nat), k < us.length →
    (∀ i, i < k → cb (us.getD i defaultUnit).tokenId (us.getD i defaultUnit).text
        (acc ++ accumText (us.take (i + 1))) = true) →
    cb (us.getD k defaultUnit).tokenId (us.getD k defaultUnit).text
        (acc ++ accumText (us.take (k + 1))) = false →
    emitUntilStop cb us acc = us.take (k + 1)
  | [], _, k, hk, _, _ => absurd hk (by simp)
  | u :: rest, acc, 0, _, _, hs => by
      have h0 : cb u.tokenId u.text (acc ++ u.text) = false := by
        simpa [accumText, String.append_empty] using hs
      simp [emitUntilStop, h0]
  | u :: rest, acc, k + 1, hk, hb, hs => by
      have h0 : cb u.tokenId u.text (acc ++ u.text) = true := by
        have := hb 0 (Nat.succ_pos k)
        simpa [accumText, String.append_empty] using this
      have hb2 : ∀ i, i < k →
          cb (rest.getD i defaultUnit).tokenId (rest.getD i defaultUnit).text
            ((acc ++ u.text) ++ accumText (rest.take (i + 1))) = true := by
        intro i hi
        have := hb (i + 1) (Nat.succ_lt_succ hi)
        simpa [accumText, String.append_assoc] using this
      have hs2 : cb (rest.getD k defaultUnit).tokenId (rest.getD k defaultUnit).text
          ((acc ++ u.text) ++ accumText (rest.take (k + 1))) = false := by
        simpa [accumText, String.append_assoc] using hs
      have ih := emitUntilStop_eq_take cb rest (acc ++ u.text) k
        (by simpa using hk) hb2 hs2
      simp [emitUntilStop, h0, ih]

/-- The event trace of the injected hook over a stop-honouring run is the
per-unit [push, consult] pattern over exactly the units the provider
emitted. -/
lemma streamEventsStopping_eq_flatMap (h : Nat → String → String → JSValue) :
    ∀ (us : List TokenUnit) (acc : String),
    streamEventsStopping (some h) us acc =
      (emitUntilStop
          (fun a b c => continueFlag (some (streamOnToken (some h))) a b c)
          us acc).flatMap
        (fun u => [SEvent.push u.text, SEvent.consult u.tokenId u.text])
  | [], _ => rfl
  | u :: rest, acc => by
      by_cases hv : h u.tokenId u.text (acc ++ u.text) = JSValue.bool false
      · simp [streamEventsStopping, emitUntilStop, continueFlag, streamOnToken, hv]
      · simp [streamEventsStopping, emitUntilStop, continueFlag, streamOnToken, hv,
          streamEventsStopping_eq_flatMap h rest (acc ++ u.text)]

/-- The last element of the mapped `(k + 1)`-prefix of a unit list is the
image of the `k`-th unit. -/
lemma getLast?_take_map (f : TokenUnit → String) :
    ∀ (us : List TokenUnit) (k : Nat), k < us.length →
      ((us.take (k + 1)).map f).getLast? = some (f (us.getD k defaultUnit))
  | [], k, hk => absurd hk (by simp)
  | u :: rest, 0, _ => by simp
  | u :: rest, k + 1, hk => by
      have hk2 : k < rest.length := by simpa using hk
      cases rest with
      | nil => exact absurd hk2 (by simp)
      | cons r rest2 =>
          have ih := getLast?_take_map f (r :: rest2) k hk2
          simpa [List.take_succ_cons, List.getLast?_cons_cons] using ih

/-- Claim C10: in `createCompletionStream` every invoked unit's text is
pushed onto the stream before the caller's hook is consulted for that unit
(the injected hook's event trace is push-then-consult per unit); in
particular, when the caller's hook returns false at unit `k` (flags true
strictly before `k`) and the provider honours the stop signal, the text of
unit `k` was already pushed and is the stream's final chunk. -/
theorem createCompletionStream_push_before_hook {ε : Type} (p : Provider ε)
    (h : Nat → String → String → JSValue) (k : Nat)
    (hk : k < p.units.length)
    (hbefore : ∀ i, i < k →
      h (p.units.getD i defaultUnit).tokenId (p.units.getD i defaultUnit).text
        (accumText (p.units.take (i + 1))) ≠ JSValue.bool false)
    (hstop : h (p.units.getD k defaultUnit).tokenId
        (p.units.getD k defaultUnit).text
        (accumText (p.units.take (k + 1))) = JSValue.bool false) :
    streamEventsStopping (some h) p.units "" =
      (p.units.take (k + 1)).flatMap
        (fun u => [SEvent.push u.text, SEvent.consult u.tokenId u.text]) ∧
    streamStoppingChunks p { onToken := some h } =
      (p.units.take (k + 1)).map (fun u => u.text) ∧
    (streamStoppingChunks p { onToken := some h }).getLast? =
      some (p.units.getD k defaultUnit).text := by
  have htake := emitUntilStop_eq_take
    (fun a b c => continueFlag (some (streamOnToken (some h))) a b c)
    p.units "" k hk
    (by
      intro i hi
      simp only [continueFlag, streamOnToken, String.empty_append]
      rw [if_neg (hbefore i hi)])
    (by
      simp only [continueFlag, streamOnToken, String.empty_append]
      rw [if_pos hstop])
  refine ⟨?_, ?_, ?_⟩
  · rw [streamEventsStopping_eq_flatMap h p.units "", htake]
  · show (emitUntilStop _ p.units "").map _ = _
    rw [htake]
  · show ((emitUntilStop _ p.units "").map _).getLast? = _
    rw [htake]
    exact getLast?_take_map (fun u => u.text) p.units k hk

/-- Witness for C10: with the hook that returns false at the second sample
unit, the stream's chunks are the first two texts and the final chunk is the
stopping unit's text "llo". -/
theorem createCompletionStream_push_before_hook_witness :
    streamEventsStopping (some stopAtSecondHook) sampleOkProvider.units "" =
      (sampleOkProvider.units.take (1 + 1)).flatMap
        (fun u => [SEvent.push u.text, SEvent.consult u.tokenId u.text]) ∧
    streamStoppingChunks sampleOkProvider { onToken := some stopAtSecondHook } =
      (sampleOkProvider.units.take (1 + 1)).map (fun u => u.text) ∧
    (streamStoppingChunks sampleOkProvider
        { onToken := some stopAtSecondHook }).getLast? =
      some (sampleOkProvider.units.getD 1 defaultUnit).text :=
  createCompletionStream_push_before_hook sampleOkProvider stopAtSecondHook 1
    (by decide)
    (fun i hi => by
      have hi0 : i = 0 := Nat.lt_one_iff.mp hi
      subst hi0
      decide)
    (by decide)

end Gpt4all
